import Mathlib

/-!
Verification development for the AnimeLibrarian application
(src/anime_librarian).  The Python modules `file_renamer.py`, `core.py`,
`errors.py` and `models.py` are shallowly embedded below: paths are
strings joined with "/", the filesystem is an explicit record threaded
through the operations, the remote AI service is represented by the JSON
value it replies with, and the interactive input reader by the list of
responses it would return.
-/

namespace AnimeLibrarian

/-! ## Path helpers (mirroring `pathlib` as used by the code) -/

/-- Split a character list at every occurrence of `c` (the semantics of
Python `str.split` with a one-character separator). -/
def splitOnChar (c : Char) : List Char → List (List Char)
  | [] => [[]]
  | x :: xs =>
    match splitOnChar c xs with
    | [] => [[x]]
    | y :: ys => if x == c then [] :: y :: ys else (x :: y) :: ys

/-- Split a path string into its "/"-separated components. -/
def splitPath (p : String) : List String :=
  (splitOnChar '/' p.toList).map String.mk

/-- Parent directory of a path, as produced by `Path.parent` on the
paths this program builds (everything before the last "/"). -/
def parentOf (p : String) : String :=
  String.intercalate "/" (splitPath p).dropLast

/-- Last path component, as produced by `Path.name`. -/
def baseName (p : String) : String := (splitPath p).getLastD ""

/-- `pathlib` join: `root / name`. -/
def joinPath (root name : String) : String := root ++ "/" ++ name

/-- Index of the last occurrence of a character in a list, mirroring
`str.rfind` (used by `PurePath.suffix`). -/
def lastIndexOf (c : Char) : List Char → Option Nat
  | [] => none
  | x :: xs =>
    match lastIndexOf c xs with
    | some i => some (i + 1)
    | none => if x == c then some 0 else none

/-- `PurePath.suffix` of a file name: `name[i:]` where `i` is the index
of the last dot, provided `0 < i < len(name) - 1`, else the empty
string. -/
def pySuffix (name : String) : String :=
  let cs := name.toList
  match lastIndexOf '.' cs with
  | some i => if 0 < i ∧ i < cs.length - 1 then String.mk (cs.drop i) else ""
  | none => ""

/-! ## Media extension filter (`FileRenamer` class constants) -/

def VIDEO_EXTENSIONS : List String :=
  [".mp4", ".mkv", ".avi", ".mov", ".wmv", ".flv", ".webm"]

def SUBTITLE_EXTENSIONS : List String := [".srt", ".ass", ".ssa", ".sub", ".vtt"]

def MEDIA_EXTENSIONS : List String := VIDEO_EXTENSIONS ++ SUBTITLE_EXTENSIONS

/-- Python `str.lower`, restricted to the ASCII range the extension
constants live in. -/
def asciiLower (s : String) : String :=
  String.mk (s.toList.map Char.toLower)

/-- The filter `f.suffix.lower() in self.MEDIA_EXTENSIONS` applied to a
path. -/
def isMediaFile (p : String) : Bool :=
  MEDIA_EXTENSIONS.contains (asciiLower (pySuffix (baseName p)))

/-! ## Path mapping (`FileRenamer.get_file_pairs`, lines 228-243)

The loop converts each `(source_name, target_name)` string pair coming
from the AI into a `(source_file, target_file)` path pair.  `"/" in
target_name` is tested, and `target_name.split("/", 1)` splits at the
first slash only. -/

/-- Python `"/" in s`. -/
def hasSlash (s : String) : Bool := s.toList.contains '/'

/-- Helper for `str.split("/", 1)`: the characters before the first "/"
and the characters after it (later slashes kept). -/
def splitFirstSlashAux : List Char → List Char × List Char
  | [] => ([], [])
  | x :: xs =>
    if x == '/' then ([], xs)
    else
      let r := splitFirstSlashAux xs
      (x :: r.1, r.2)

/-- Python `s.split("/", 1)` on a string containing "/": the part
before the first "/" and the remainder. -/
def splitFirstSlash (s : String) : String × String :=
  let r := splitFirstSlashAux s.toList
  (String.mk r.1, String.mk r.2)

/-- The path-construction loop of `get_file_pairs`: one `FilePair` per
`NamePair`, in order. -/
def mapNamePairs (sourcePath targetPath : String)
    (namePairs : List (String × String)) : List (String × String) :=
  namePairs.map (fun pair =>
    let sourceFile := joinPath sourcePath pair.1
    let targetFile :=
      if hasSlash pair.2 then
        let split := splitFirstSlash pair.2
        joinPath (joinPath targetPath split.1) split.2
      else
        joinPath targetPath pair.2
    (sourceFile, targetFile))

/-! ## JSON values and the remote reply (`models.py`, `errors.py`)

The remote service replies with a JSON value; `ApiResponse` validates
the `data.outputs.text` nesting and `AIResponse` validates the repaired
inner text against the shape
`\x7bresult: [\x7boriginal_name, new_name\x7d, ...]\x7d`. -/

inductive Json where
  | null : Json
  | bool : Bool → Json
  | num : Int → Json
  | str : String → Json
  | arr : List Json → Json
  | obj : List (String × Json) → Json

/-- Look up a key in a JSON object field list. -/
def jLookup (fields : List (String × Json)) (k : String) : Option Json :=
  (fields.find? (fun f => f.1 == k)).map (fun f => f.2)

/-- An underlying validation failure (the `ValueError`/`TypeError`/
`KeyError`/`AttributeError` caught by `_get_name_pairs_from_ai`); only
its message is relevant to the claims. -/
structure PyError where
  msg : String
deriving Repr, DecidableEq

/-- `AIParseError` from `errors.py`: message built by its constructor,
cause chain kept by the `raise ... from error` in `raise_parse_error`. -/
structure AIParseError where
  message : String
  cause : PyError
deriving Repr, DecidableEq

/-- `raise_parse_error(error)`: raises `AIParseError(str(error))` with
`error` as the cause; the `AIParseError.__init__` prepends
"Failed to parse AI response: ". -/
def raiseParseError (e : PyError) : AIParseError :=
  { message := "Failed to parse AI response: " ++ e.msg, cause := e }

/-- `ApiResponse.model_validate` followed by `.response_text`: requires
the `data.outputs.text` nesting with `text` a string. -/
def validateApiResponse (j : Json) : Except PyError String :=
  match j with
  | .obj topFields =>
    match jLookup topFields "data" with
    | some (.obj dataFields) =>
      match jLookup dataFields "outputs" with
      | some (.obj outputFields) =>
        match jLookup outputFields "text" with
        | some (.str t) => .ok t
        | some _ => .error { msg := "text: Input should be a valid string" }
        | none => .error { msg := "text: Field required" }
      | some _ => .error { msg := "outputs: Input should be a valid dictionary" }
      | none => .error { msg := "outputs: Field required" }
    | some _ => .error { msg := "data: Input should be a valid dictionary" }
    | none => .error { msg := "data: Field required" }
  | _ => .error { msg := "Input should be a valid dictionary" }

/-- Validation of one element of `result` against the `NamePair` model:
an object with string fields `original_name` and `new_name`. -/
def validateNamePair (j : Json) : Except PyError (String × String) :=
  match j with
  | .obj fields =>
    match jLookup fields "original_name", jLookup fields "new_name" with
    | some (.str o), some (.str n) => .ok (o, n)
    | some (.str _), some _ =>
        .error { msg := "new_name: Input should be a valid string" }
    | some (.str _), none => .error { msg := "new_name: Field required" }
    | some _, _ => .error { msg := "original_name: Input should be a valid string" }
    | none, _ => .error { msg := "original_name: Field required" }
  | _ => .error { msg := "Input should be a valid dictionary" }

/-- `AIResponse.model_validate`: an object with a `result` list of
`NamePair`s, returned as `(original_name, new_name)` tuples as in the
conversion loop of `_get_name_pairs_from_ai`. -/
def validateAIResponse (j : Json) : Except PyError (List (String × String)) :=
  match j with
  | .obj fields =>
    match jLookup fields "result" with
    | some (.arr elems) => elems.mapM validateNamePair
    | some _ => .error { msg := "result: Input should be a valid list" }
    | none => .error { msg := "result: Field required" }
  | _ => .error { msg := "Input should be a valid dictionary" }

/-- `FileRenamer._get_name_pairs_from_ai`, given the JSON value `resp`
the HTTP client returned and the behaviour `repair` of
`json_repair.repair_json(..., return_objects=True)` (a total best-effort
repair of the inner text into a JSON value).  Either validation failure
is turned into a single `AIParseError` by `raise_parse_error`. -/
def getNamePairsFromAI (repair : String → Json) (resp : Json) :
    Except AIParseError (List (String × String)) :=
  match validateApiResponse resp with
  | .error e => .error (raiseParseError e)
  | .ok responseText =>
    match validateAIResponse (repair responseText) with
    | .error e => .error (raiseParseError e)
    | .ok namePairs => .ok namePairs

/-! ## Filesystem model

The filesystem is a record of existing file paths and directory paths,
plus oracles saying which `mkdir` and `shutil.move` calls raise an
`OSError` (permissions, cross-device links, ...), so that the
error-handling paths of the code can be exercised. -/

structure FS where
  files : List String
  dirs : List String
  mkdirFails : String → Option String
  moveFails : String → String → Option String

/-- `Path.exists()`. -/
def fsExists (fs : FS) (p : String) : Bool :=
  fs.files.contains p || fs.dirs.contains p

/-- Direct children of `root` among the existing files
(`source_path.glob("*")` restricted to files). -/
def listFiles (fs : FS) (root : String) : List String :=
  fs.files.filter (fun f => parentOf f == root)

/-- Direct children of `root` among the existing directories
(`target_path.glob("*")` restricted to directories). -/
def listDirs (fs : FS) (root : String) : List String :=
  fs.dirs.filter (fun d => parentOf d == root)

/-- The proper prefixes "a", "a/b", ... of a path "a/b/.../z": the
missing ancestors `mkdir(parents=True)` creates first. -/
def properAncestors (d : String) : List String :=
  let comps := splitPath d
  (List.range (comps.length - 1)).map
    (fun i => String.intercalate "/" (comps.take (i + 1)))

/-- The ancestors of a directory followed by the directory itself, in
the order `mkdir(parents=True)` creates them. -/
def ancestorsAndSelf (d : String) : List String := properAncestors d ++ [d]

/-- `Path.mkdir(parents=True, exist_ok=exist_ok)`: fails when the
oracle reports an `OSError`, or when the path already exists and either
`exist_ok` is false or the path is a file; otherwise records the
directory and its missing ancestors. -/
def pyMkdir (fs : FS) (d : String) (exist_ok : Bool) : Except String FS :=
  match fs.mkdirFails d with
  | some e => .error e
  | none =>
    if fs.dirs.contains d then
      if exist_ok then .ok fs else .error "FileExistsError"
    else if fs.files.contains d then .error "FileExistsError"
    else .ok { fs with
      dirs := fs.dirs ++ (ancestorsAndSelf d).filter (fun a => !fs.dirs.contains a) }

/-- `shutil.move(source, target)`: fails when the oracle reports an
error, otherwise the source file becomes the target file. -/
def shutilMove (fs : FS) (s t : String) : Except String FS :=
  match fs.moveFails s t with
  | some e => .error e
  | none => .ok { fs with files := (fs.files.filter (fun f => f != s)) ++ [t] }

/-! ## `FileRenamer` filesystem operations -/

/-- `FileRenamer.check_for_conflicts`: the targets that already exist. -/
def checkForConflicts (fs : FS) (filePairs : List (String × String)) :
    List String :=
  (filePairs.filter (fun p => fsExists fs p.2)).map (fun p => p.2)

/-- Insertion-ordered deduplication, keeping the first occurrence.  The
Python code accumulates the missing parents in a `set` and returns
`list(missing_dirs)`; CPython's set iteration order is hash-dependent
(and with string hash randomization not even stable across runs), and
the embedding fixes it as first-insertion order. -/
def dedupFirstAux (seen : List String) : List String → List String
  | [] => []
  | x :: xs =>
    if seen.contains x then dedupFirstAux seen xs
    else x :: dedupFirstAux (seen ++ [x]) xs

def dedupFirst (xs : List String) : List String := dedupFirstAux [] xs

/-- `FileRenamer.find_missing_directories`: the distinct parents of the
targets that do not yet exist. -/
def findMissingDirectories (fs : FS) (filePairs : List (String × String)) :
    List String :=
  dedupFirst ((filePairs.map (fun p => parentOf p.2)).filter
    (fun d => !fsExists fs d))

/-- `FileRenamer.create_directories`: `mkdir(parents=True,
exist_ok=True)` on each directory in order, returning `False` and
stopping at the first failure. -/
def createDirectories (fs : FS) : List String → Bool × FS
  | [] => (true, fs)
  | d :: rest =>
    match pyMkdir fs d true with
    | .error _ => (false, fs)
    | .ok fsNext => createDirectories fsNext rest

/-- A recorded move failure: `(source, target, error message)`. -/
abbrev MoveError := String × String × String

/-- `FileRenamer.rename_files`: attempts every pair in order, collecting
one `MoveError` per failed move and applying every successful one. -/
def renameFiles (fs : FS) : List (String × String) → List MoveError × FS
  | [] => ([], fs)
  | (s, t) :: rest =>
    match shutilMove fs s t with
    | .ok fsNext => renameFiles fsNext rest
    | .error msg =>
      let result := renameFiles fs rest
      ((s, t, msg) :: result.1, result.2)

/-- `FileRenamer.get_file_pairs`: lists the media files of the source
directory and the subdirectories of the target directory, returns `[]`
when either list is empty, otherwise consults the AI service and maps
the name pairs to path pairs.  The boolean records whether an HTTP
request was sent; the `Except` carries the `AIParseError` that the
resolver would raise. -/
def getFilePairs (fs : FS) (sourcePath targetPath : String)
    (repair : String → Json) (resp : Json) :
    Except AIParseError (List (String × String)) × Bool :=
  let sourceFiles := (listFiles fs sourcePath).filter isMediaFile
  let targetDirs := listDirs fs targetPath
  if sourceFiles.isEmpty then (.ok [], false)
  else if targetDirs.isEmpty then (.ok [], false)
  else
    match getNamePairsFromAI repair resp with
    | .error e => (.error e, true)
    | .ok namePairs => (.ok (mapNamePairs sourcePath targetPath namePairs), true)

/-! ## Orchestrator (`core.py`, `AnimeLibrarian.run`)

Command-line arguments are the four flags `run` examines; the input
reader is a list of responses consumed in order (out-of-range reads
return ""); the result records the exit code, the final filesystem and
how many times the input reader was consulted. -/

structure Args where
  version : Bool
  verbose : Bool
  dryRun : Bool
  yes : Bool

structure RunResult where
  exitCode : Nat
  fs : FS
  reads : Nat

/-- `AnimeLibrarian._confirm_operation`: in auto-yes mode returns `True`
without reading; otherwise reads one response and accepts it exactly
when it equals "y".  Returns the decision and the next read index. -/
def confirmOperation (yes : Bool) (inputs : List String) (idx : Nat) :
    Bool × Nat :=
  if yes then (true, idx)
  else ((inputs.getD idx "") == "y", idx + 1)

/-- `AnimeLibrarian._rename_files_and_report`: performs the moves and
reports each error individually; exit code 0 exactly when no error
occurred. -/
structure ReportResult where
  exitCode : Nat
  fs : FS
  reported : List String

def renameFilesAndReport (fs : FS) (filePairs : List (String × String)) :
    ReportResult :=
  let result := renameFiles fs filePairs
  { exitCode := if result.1.isEmpty then 0 else 1
    fs := result.2
    reported := result.1.map
      (fun e => "Error moving " ++ e.1 ++ " to " ++ e.2.1 ++ ": " ++ e.2.2) }

/-- The tail of `run` from `_rename_files_and_report`. -/
def runMove (fs : FS) (filePairs : List (String × String)) (idx : Nat) :
    RunResult :=
  let r := renameFilesAndReport fs filePairs
  { exitCode := r.exitCode, fs := r.fs, reads := idx }

/-- `AnimeLibrarian._handle_directories` followed by the move step:
lists the missing target parents, asks for confirmation when not in
auto-yes mode, creates them, and fails with exit code 1 when
`create_directories` reports a failure. -/
def runDirectories (args : Args) (fs : FS) (filePairs : List (String × String))
    (inputs : List String) (idx : Nat) : RunResult :=
  let missing := findMissingDirectories fs filePairs
  if missing.isEmpty then runMove fs filePairs idx
  else
    if args.yes then
      let created := createDirectories fs missing
      if created.1 then runMove created.2 filePairs idx
      else { exitCode := 1, fs := created.2, reads := idx }
    else
      let c := confirmOperation args.yes inputs idx
      if c.1 then
        let created := createDirectories fs missing
        if created.1 then runMove created.2 filePairs c.2
        else { exitCode := 1, fs := created.2, reads := c.2 }
      else { exitCode := 0, fs := fs, reads := c.2 }

/-- `AnimeLibrarian._handle_conflicts` followed by the rest of `run`:
when conflicts exist and auto-yes is off, a negative answer terminates
with exit code 0. -/
def runConflicts (args : Args) (fs : FS) (filePairs : List (String × String))
    (inputs : List String) (idx : Nat) : RunResult :=
  let conflicts := checkForConflicts fs filePairs
  if !conflicts.isEmpty && !args.yes then
    let c := confirmOperation args.yes inputs idx
    if c.1 then runDirectories args fs filePairs inputs c.2
    else { exitCode := 0, fs := fs, reads := c.2 }
  else runDirectories args fs filePairs inputs idx

/-- The part of `run` after the file pairs were obtained: empty-pairs
early exit, move-plan display with dry-run short circuit, the final-move
confirmation, then conflicts, directories and the moves. -/
def runAfterPairs (args : Args) (fs : FS) (filePairs : List (String × String))
    (inputs : List String) : RunResult :=
  if filePairs.isEmpty then { exitCode := 0, fs := fs, reads := 0 }
  else if args.dryRun then { exitCode := 0, fs := fs, reads := 0 }
  else
    let c := confirmOperation args.yes inputs 0
    if c.1 then runConflicts args fs filePairs inputs c.2
    else { exitCode := 0, fs := fs, reads := c.2 }

/-- `AnimeLibrarian.run`: version short circuit, then
`_get_file_pairs` (any resolver exception yields exit code 1), then the
interactive pipeline. -/
def run (args : Args) (fs : FS) (sourcePath targetPath : String)
    (repair : String → Json) (resp : Json) (inputs : List String) : RunResult :=
  if args.version then { exitCode := 0, fs := fs, reads := 0 }
  else
    match (getFilePairs fs sourcePath targetPath repair resp).1 with
    | .error _ => { exitCode := 1, fs := fs, reads := 0 }
    | .ok filePairs => runAfterPairs args fs filePairs inputs

/-! ## Concrete fixtures used to instantiate the theorems -/

/-- A repair behaviour standing for `json_repair` turning unrepairable
text into a null object. -/
def nullRepair : String → Json := fun _ => Json.null

/-- The malformed remote reply from the spec's example. -/
def badReply : Json := Json.obj [("data", Json.obj [])]

/-- A well-formed remote reply mapping `ep1.mkv` to `Show/Episode_01.mkv`. -/
def goodReplyText : String := "reply-text"

def goodReplyPairs : Json :=
  Json.obj [("result", Json.arr
    [Json.obj [("original_name", Json.str "ep1.mkv"),
               ("new_name", Json.str "Show/Episode_01.mkv")]])]

def goodReply : Json :=
  Json.obj [("data", Json.obj [("outputs", Json.obj
    [("text", Json.str goodReplyText)])])]

def goodRepair : String → Json := fun _ => goodReplyPairs

/-- A filesystem with one media file in the source directory and one
subdirectory in the target directory; no oracle failures. -/
def sampleFS : FS :=
  { files := ["src/ep1.mkv"]
    dirs := ["src", "dst", "dst/Show"]
    mkdirFails := fun _ => none
    moveFails := fun _ _ => none }

/-- A filesystem whose mkdir oracle denies one specific directory. -/
def denyFS : FS :=
  { files := []
    dirs := ["t"]
    mkdirFails := fun d => if d == "t/deny" then some "PermissionError" else none
    moveFails := fun _ _ => none }

/-- A filesystem for exercising `find_missing_directories`: two source
media files and a target directory containing no subdirectories of the
planned parents. -/
def c7FS : FS :=
  { files := ["s/x.mkv", "s/y.mkv"]
    dirs := ["s", "t"]
    mkdirFails := fun _ => none
    moveFails := fun _ _ => none }

/-- Arguments: no version, no dry-run, auto-confirm off. -/
def askArgs : Args :=
  { version := false, verbose := false, dryRun := false, yes := false }

/-- Arguments: auto-confirm on. -/
def yesArgs : Args :=
  { version := false, verbose := false, dryRun := false, yes := true }

/-- Arguments: dry-run mode. -/
def dryArgs : Args :=
  { version := false, verbose := false, dryRun := true, yes := false }

/-- A filesystem whose target directory has no subdirectories although
the source directory holds a media file. -/
def c9FS : FS :=
  { files := ["src/ep1.mkv"]
    dirs := ["src", "dst"]
    mkdirFails := fun _ => none
    moveFails := fun _ _ => none }

/-- A filesystem on which the planned target parent `dst/Show` is
missing and its creation is denied. -/
def c4FS : FS :=
  { files := ["src/ep1.mkv"]
    dirs := ["src", "dst", "dst/Other"]
    mkdirFails := fun d => if d == "dst/Show" then some "PermissionError" else none
    moveFails := fun _ _ => none }

/-! ## Theorems -/

theorem append_slash_flatten (root : String) (a b : String) :
    joinPath (joinPath root a) b = root ++ ("/" ++ a ++ "/" ++ b) := by
  simp [joinPath, String.append_assoc]

/-- C1: the path-mapping step of `get_file_pairs` produces exactly one
FilePair per NamePair, in the same order, with
`source = source_root / original_name`; a `new_name` containing "/" is
split at the first "/" only, so "A/B/C.mkv" maps to
`target_root/A/B/C.mkv` with subdir "A" and rest "B/C.mkv"; otherwise
`target = target_root / new_name`. -/
theorem C1_path_mapping (sourcePath targetPath : String)
    (namePairs : List (String × String)) :
    (mapNamePairs sourcePath targetPath namePairs).length = namePairs.length ∧
    (∀ i : Nat, (mapNamePairs sourcePath targetPath namePairs)[i]? =
      namePairs[i]?.map (fun pair =>
        (joinPath sourcePath pair.1,
         if hasSlash pair.2 then
           joinPath (joinPath targetPath (splitFirstSlash pair.2).1)
             (splitFirstSlash pair.2).2
         else joinPath targetPath pair.2))) ∧
    splitFirstSlash "A/B/C.mkv" = ("A", "B/C.mkv") ∧
    hasSlash "A/B/C.mkv" = true ∧
    mapNamePairs sourcePath targetPath [("ep1.mkv", "A/B/C.mkv")] =
      [(sourcePath ++ "/ep1.mkv", targetPath ++ "/A/B/C.mkv")] ∧
    hasSlash "Episode 1.mkv" = false ∧
    mapNamePairs sourcePath targetPath [("ep1.mkv", "Episode 1.mkv")] =
      [(sourcePath ++ "/ep1.mkv", targetPath ++ "/Episode 1.mkv")] := by
  refine ⟨by simp [mapNamePairs], ?_, by decide, by decide, ?_, by decide, ?_⟩
  · intro i
    simp [mapNamePairs, List.getElem?_map]
  · have h1 : hasSlash "A/B/C.mkv" = true := by decide
    have h2 : splitFirstSlash "A/B/C.mkv" = ("A", "B/C.mkv") := by decide
    simp only [mapNamePairs, List.map_cons, List.map_nil, h1, if_true, h2]
    rw [append_slash_flatten, joinPath, String.append_assoc sourcePath]
    rfl
  · have h1 : hasSlash "Episode 1.mkv" = false := by decide
    simp only [mapNamePairs, List.map_cons, List.map_nil, h1,
      Bool.false_eq_true, if_false]
    rw [joinPath, joinPath, String.append_assoc sourcePath,
      String.append_assoc targetPath]
    rfl

/-- C2: whenever the remote reply lacks the `data.outputs.text` nesting,
or its inner text fails validation against the expected shape even after
JSON repair, the resolver produces a single `AIParseError` whose message
embeds the underlying cause's message and whose cause field preserves
the original exception, and the orchestrator's `run` then returns exit
code 1. -/
theorem C2_resolver_error (repair : String → Json) (resp : Json) :
    (∀ e, validateApiResponse resp = .error e →
      getNamePairsFromAI repair resp =
        .error { message := "Failed to parse AI response: " ++ e.msg, cause := e }) ∧
    (∀ t e, validateApiResponse resp = .ok t →
      validateAIResponse (repair t) = .error e →
      getNamePairsFromAI repair resp =
        .error { message := "Failed to parse AI response: " ++ e.msg, cause := e }) ∧
    (∀ (args : Args) (fs : FS) (sourcePath targetPath : String)
        (inputs : List String) (e : AIParseError),
      args.version = false →
      getNamePairsFromAI repair resp = .error e →
      ((listFiles fs sourcePath).filter isMediaFile).isEmpty = false →
      (listDirs fs targetPath).isEmpty = false →
      run args fs sourcePath targetPath repair resp inputs =
        { exitCode := 1, fs := fs, reads := 0 }) := by
  refine ⟨?_, ?_, ?_⟩
  · intro e he
    simp [getNamePairsFromAI, he, raiseParseError]
  · intro t e ht he
    simp [getNamePairsFromAI, ht, he, raiseParseError]
  · intro args fs sourcePath targetPath inputs e hv he hs htd
    simp [run, hv, getFilePairs, hs, htd, he]

/-- Witness for C2 on the spec's example reply `\x7b"data": \x7b\x7d\x7d`. -/
theorem C2_resolver_error_witness :
    getNamePairsFromAI nullRepair badReply =
      .error { message := "Failed to parse AI response: " ++ "outputs: Field required"
               cause := { msg := "outputs: Field required" } } ∧
    run yesArgs sampleFS "src" "dst" nullRepair badReply [] =
      { exitCode := 1, fs := sampleFS, reads := 0 } := by
  constructor
  · exact (C2_resolver_error nullRepair badReply).1
      { msg := "outputs: Field required" } (by rfl)
  · exact (C2_resolver_error nullRepair badReply).2.2 yesArgs sampleFS "src" "dst" []
      { message := "Failed to parse AI response: " ++ "outputs: Field required"
        cause := { msg := "outputs: Field required" } }
      (by rfl) (by rfl) (by decide) (by decide)

theorem renameFiles_errors (fs : FS) (ps : List (String × String)) :
    (renameFiles fs ps).1 =
      (ps.filter (fun p => (fs.moveFails p.1 p.2).isSome)).map
        (fun p => (p.1, p.2, (fs.moveFails p.1 p.2).getD "")) := by
  induction ps generalizing fs with
  | nil => simp [renameFiles]
  | cons hd tl ih =>
    obtain ⟨s, t⟩ := hd
    cases hmf : fs.moveFails s t with
    | none =>
      simp only [renameFiles, shutilMove, hmf, List.filter_cons, Option.isSome_none,
        Bool.false_eq_true, if_false]
      exact ih _
    | some e =>
      simp only [renameFiles, shutilMove, hmf, List.filter_cons, Option.isSome_some,
        if_true, List.map_cons, Option.getD_some]
      simp [ih]

/-- C3: every pair whose move fails contributes exactly one
`(source, target, message)` error, every other pair is still attempted
in list order, the returned list is empty exactly when every move
succeeded, and a failure never aborts the remaining batch. -/
theorem C3_rename_files_batch (fs : FS) (filePairs : List (String × String)) :
    (renameFiles fs filePairs).1 =
      (filePairs.filter (fun p => (fs.moveFails p.1 p.2).isSome)).map
        (fun p => (p.1, p.2, (fs.moveFails p.1 p.2).getD "")) ∧
    ((renameFiles fs filePairs).1 = [] ↔
      ∀ p ∈ filePairs, fs.moveFails p.1 p.2 = none) := by
  refine ⟨renameFiles_errors fs filePairs, ?_⟩
  rw [renameFiles_errors fs filePairs]
  simp [List.filter_eq_nil_iff, Option.isSome_iff_ne_none]

theorem pyMkdir_exist_ok (fs : FS) (d : String)
    (hf : fs.mkdirFails d = none) (hd : fs.dirs.contains d = true) :
    pyMkdir fs d true = .ok fs := by
  have hd2 : d ∈ fs.dirs := by simpa using hd
  simp [pyMkdir, hf, hd2]

theorem pyMkdir_creates (fs : FS) (d : String)
    (hf : fs.mkdirFails d = none) (hfile : fs.files.contains d = false)
    (hdir : fs.dirs.contains d = false) :
    pyMkdir fs d true =
      .ok { fs with
        dirs := fs.dirs ++
          (ancestorsAndSelf d).filter (fun a => !fs.dirs.contains a) } ∧
    ∀ a ∈ ancestorsAndSelf d,
      (fs.dirs ++
        (ancestorsAndSelf d).filter (fun a => !fs.dirs.contains a)).contains a
        = true := by
  have hfile2 : d ∉ fs.files := by simpa using hfile
  have hdir2 : d ∉ fs.dirs := by simpa using hdir
  constructor
  · simp [pyMkdir, hf, hfile2, hdir2]
  · intro a ha
    by_cases hmem : a ∈ fs.dirs
    · simp [hmem]
    · simp [List.mem_append, List.mem_filter, ha, hmem]

theorem pyMkdir_ok_props (fs : FS) (d : String)
    (hf : fs.mkdirFails d = none) (hfile : fs.files.contains d = false) :
    ∃ fs2, pyMkdir fs d true = .ok fs2 ∧
      fs2.files = fs.files ∧ fs2.mkdirFails = fs.mkdirFails ∧
      fs2.moveFails = fs.moveFails ∧
      (∀ a, a ∈ fs.dirs → a ∈ fs2.dirs) ∧ d ∈ fs2.dirs ∧
      (fs.dirs.contains d = false → ∀ a ∈ ancestorsAndSelf d, a ∈ fs2.dirs) := by
  by_cases hdir : d ∈ fs.dirs
  · refine ⟨fs, pyMkdir_exist_ok fs d hf (by simpa), rfl, rfl, rfl,
      fun a ha => ha, hdir, ?_⟩
    intro hcon
    simp [hdir] at hcon
  · have hdir2 : fs.dirs.contains d = false := by simpa
    obtain ⟨hmk, hall⟩ := pyMkdir_creates fs d hf hfile hdir2
    refine ⟨_, hmk, rfl, rfl, rfl, ?_, ?_, ?_⟩
    · intro a ha
      simp [List.mem_append, ha]
    · have := hall d (by simp [ancestorsAndSelf])
      simpa using this
    · intro _ a ha
      have := hall a ha
      simpa using this

theorem createDirectories_ok (ds : List String) :
    ∀ fs : FS,
      (∀ d ∈ ds, fs.mkdirFails d = none ∧ fs.files.contains d = false) →
      (createDirectories fs ds).1 = true ∧
      (createDirectories fs ds).2.files = fs.files ∧
      (createDirectories fs ds).2.mkdirFails = fs.mkdirFails ∧
      (∀ a, a ∈ fs.dirs → a ∈ (createDirectories fs ds).2.dirs) ∧
      (∀ d ∈ ds, d ∈ (createDirectories fs ds).2.dirs) := by
  induction ds with
  | nil =>
    intro fs h
    simp [createDirectories]
  | cons d tl ih =>
    intro fs h
    obtain ⟨hfd, hfile⟩ := h d (List.mem_cons_self d tl)
    obtain ⟨fs2, hmk, hfiles, hmf, hmv, hmono, hd2, hanc⟩ :=
      pyMkdir_ok_props fs d hfd hfile
    have htl : ∀ x ∈ tl, fs2.mkdirFails x = none ∧ fs2.files.contains x = false := by
      intro x hx
      rw [hmf, hfiles]
      exact h x (List.mem_cons_of_mem d hx)
    have irec := ih fs2 htl
    simp only [createDirectories, hmk]
    refine ⟨irec.1, by rw [irec.2.1, hfiles], by rw [irec.2.2.1, hmf], ?_, ?_⟩
    · intro a ha
      exact irec.2.2.2.1 a (hmono a ha)
    · intro x hx
      rcases List.mem_cons.mp hx with rfl | hx
      · exact irec.2.2.2.1 x hd2
      · exact irec.2.2.2.2 x hx

theorem createDirectories_stop (good : List String) :
    ∀ (fs : FS) (bad : String) (rest : List String) (e : String),
      (createDirectories fs good).1 = true →
      pyMkdir (createDirectories fs good).2 bad true = .error e →
      createDirectories fs (good ++ bad :: rest) =
        (false, (createDirectories fs good).2) := by
  induction good with
  | nil =>
    intro fs bad rest e hg hb
    simp only [createDirectories] at hb
    simp only [List.nil_append, createDirectories, hb]
  | cons d tl ih =>
    intro fs bad rest e hg hb
    cases hmk : pyMkdir fs d true with
    | error e2 =>
      rw [createDirectories, hmk] at hg
      simp at hg
    | ok fs2 =>
      rw [createDirectories, hmk] at hg hb
      simp only [List.cons_append, createDirectories, hmk]
      exact ih fs2 bad rest e hg hb

/-- C6: `create_directories` creates each directory with its missing
ancestors, treats an already-existing directory as success (idempotent,
via `exist_ok=True`), returns `False` and stops iterating at the first
creation failure without rolling back directories already created, and
returns `True` when every directory in the list was processed without
error. -/
theorem C6_create_directories :
    (∀ (fs : FS) (d : String), fs.mkdirFails d = none →
       fs.dirs.contains d = true → pyMkdir fs d true = .ok fs) ∧
    (∀ (fs : FS) (d : String), fs.mkdirFails d = none →
       fs.files.contains d = false → fs.dirs.contains d = false →
       ∃ fs2, pyMkdir fs d true = .ok fs2 ∧
         ∀ a ∈ ancestorsAndSelf d, a ∈ fs2.dirs) ∧
    (∀ (fs : FS) (ds : List String),
       (∀ d ∈ ds, fs.mkdirFails d = none ∧ fs.files.contains d = false) →
       (createDirectories fs ds).1 = true ∧
       ∀ d ∈ ds, d ∈ (createDirectories fs ds).2.dirs) ∧
    (∀ (fs : FS) (good : List String) (bad : String) (rest : List String)
        (e : String),
       (createDirectories fs good).1 = true →
       pyMkdir (createDirectories fs good).2 bad true = .error e →
       createDirectories fs (good ++ bad :: rest) =
         (false, (createDirectories fs good).2)) := by
  refine ⟨pyMkdir_exist_ok, ?_, ?_, ?_⟩
  · intro fs d hf hfile hdir
    obtain ⟨fs2, hmk, _, _, _, _, _, hanc⟩ := pyMkdir_ok_props fs d hf hfile
    exact ⟨fs2, hmk, hanc hdir⟩
  · intro fs ds h
    have := createDirectories_ok ds fs h
    exact ⟨this.1, this.2.2.2.2⟩
  · intro fs good bad rest e hg hb
    exact createDirectories_stop good fs bad rest e hg hb

/-- Witness for C6: an already-existing directory is a no-op success; a
nested directory is created with its ancestors; a denied directory
stops the batch with `False`, keeping the directories already created. -/
theorem C6_create_directories_witness :
    pyMkdir denyFS "t" true = .ok denyFS ∧
    (createDirectories sampleFS ["dst/A/B"]).1 = true ∧
    "dst/A/B" ∈ (createDirectories sampleFS ["dst/A/B"]).2.dirs ∧
    createDirectories denyFS (["t/ok"] ++ "t/deny" :: ["t/rest"]) =
      (false, (createDirectories denyFS ["t/ok"]).2) := by
  refine ⟨?_, ?_, ?_, ?_⟩
  · exact C6_create_directories.1 denyFS "t" (by rfl) (by decide)
  · exact (C6_create_directories.2.2.1 sampleFS ["dst/A/B"] (by decide)).1
  · exact (C6_create_directories.2.2.1 sampleFS ["dst/A/B"] (by decide)).2
      "dst/A/B" (by decide)
  · exact C6_create_directories.2.2.2 denyFS ["t/ok"] "t/deny" ["t/rest"]
      "PermissionError" (by rfl) (by rfl)

theorem dedupFirstAux_mem (xs : List String) :
    ∀ (seen : List String) (a : String),
      a ∈ dedupFirstAux seen xs ↔ a ∈ xs ∧ a ∉ seen := by
  induction xs with
  | nil =>
    intro seen a
    simp [dedupFirstAux]
  | cons x tl ih =>
    intro seen a
    by_cases hx : x ∈ seen
    · simp only [dedupFirstAux, if_pos (by simpa using hx : seen.contains x = true),
        ih seen a, List.mem_cons]
      constructor
      · exact fun h => ⟨Or.inr h.1, h.2⟩
      · rintro ⟨rfl | h1, h2⟩
        · exact absurd hx h2
        · exact ⟨h1, h2⟩
    · simp only [dedupFirstAux,
        if_neg (by simpa using hx : ¬seen.contains x = true),
        List.mem_cons, ih (seen ++ [x]) a, List.mem_append,
        List.mem_singleton]
      constructor
      · rintro (rfl | ⟨h1, h2⟩)
        · exact ⟨Or.inl rfl, hx⟩
        · exact ⟨Or.inr h1, fun hs => h2 (Or.inl hs)⟩
      · rintro ⟨rfl | h1, h2⟩
        · exact Or.inl rfl
        · by_cases hax : a = x
          · exact Or.inl hax
          · exact Or.inr ⟨h1, by simp [h2, hax]⟩

theorem dedupFirstAux_nodup (xs : List String) :
    ∀ seen : List String, (dedupFirstAux seen xs).Nodup := by
  induction xs with
  | nil =>
    intro seen
    simp [dedupFirstAux]
  | cons x tl ih =>
    intro seen
    by_cases hx : x ∈ seen
    · simp only [dedupFirstAux, if_pos (by simpa using hx : seen.contains x = true)]
      exact ih seen
    · simp only [dedupFirstAux,
        if_neg (by simpa using hx : ¬seen.contains x = true), List.nodup_cons]
      refine ⟨?_, ih (seen ++ [x])⟩
      intro hmem
      rw [dedupFirstAux_mem] at hmem
      exact hmem.2 (by simp)

/-- C7 (amended): `find_missing_directories` returns exactly the
distinct parent directories of targets that do not exist on disk — a
parent shared by two FilePairs appears once, and an existing parent
never appears.  (The order of the returned list is the iteration order
of a Python `set` and is not sorted; see the counterexample.) -/
theorem C7_find_missing_directories (fs : FS) (filePairs : List (String × String)) :
    (∀ d, d ∈ findMissingDirectories fs filePairs ↔
      fsExists fs d = false ∧ ∃ p ∈ filePairs, parentOf p.2 = d) ∧
    (findMissingDirectories fs filePairs).Nodup := by
  constructor
  · intro d
    rw [findMissingDirectories, dedupFirst, dedupFirstAux_mem]
    simp only [List.mem_filter, List.mem_map, List.not_mem_nil,
      not_false_iff, and_true, Bool.not_eq_true']
    constructor
    · rintro ⟨⟨p, hp, hpar⟩, hex⟩
      exact ⟨hex, p, hp, hpar⟩
    · rintro ⟨hex, p, hp, hpar⟩
      exact ⟨⟨p, hp, hpar⟩, hex⟩
  · exact dedupFirstAux_nodup _ []

/-- Counterexample for C7 as stated: the collection is presented in set
iteration order, not sorted — for these two pairs the embedding yields
["t/B", "t/A"], which is not ≤-sorted. -/
theorem C7_find_missing_directories_counterexample :
    findMissingDirectories c7FS
      [("s/x.mkv", "t/B/x.mkv"), ("s/y.mkv", "t/A/y.mkv")] = ["t/B", "t/A"] ∧
    ¬ List.Sorted (fun a b : String => a ≤ b)
        (findMissingDirectories c7FS
          [("s/x.mkv", "t/B/x.mkv"), ("s/y.mkv", "t/A/y.mkv")]) := by
  have hres : findMissingDirectories c7FS
      [("s/x.mkv", "t/B/x.mkv"), ("s/y.mkv", "t/A/y.mkv")] = ["t/B", "t/A"] := by
    rfl
  refine ⟨hres, ?_⟩
  rw [hres]
  intro h
  have hle : ("t/B" : String) ≤ "t/A" :=
    List.rel_of_sorted_cons h "t/A" (by simp)
  have hlt : ("t/A" : String) < "t/B" := by
    rw [String.lt_iff_toList_lt]
    decide
  exact absurd hle (not_le.mpr hlt)

theorem run_ok (args : Args) (fs : FS) (sp tp : String) (repair : String → Json)
    (resp : Json) (inputs : List String) (pairs : List (String × String))
    (hv : args.version = false)
    (hp : (getFilePairs fs sp tp repair resp).1 = .ok pairs) :
    run args fs sp tp repair resp inputs = runAfterPairs args fs pairs inputs := by
  simp [run, hv, hp]

/-- C5: with the dry-run flag set and a non-empty plan, `run` returns
exit code 0 without mutating the filesystem (and without consulting the
input reader). -/
theorem C5_dry_run (args : Args) (fs : FS) (sp tp : String)
    (repair : String → Json) (resp : Json) (inputs : List String)
    (pairs : List (String × String))
    (hv : args.version = false) (hd : args.dryRun = true)
    (hp : (getFilePairs fs sp tp repair resp).1 = .ok pairs)
    (hne : pairs.isEmpty = false) :
    run args fs sp tp repair resp inputs = { exitCode := 0, fs := fs, reads := 0 } := by
  rw [run_ok args fs sp tp repair resp inputs pairs hv hp]
  simp [runAfterPairs, hne, hd]

/-- Witness for C5 at a concrete filesystem and remote reply. -/
theorem C5_dry_run_witness :
    run dryArgs sampleFS "src" "dst" goodRepair goodReply ["y"] =
      { exitCode := 0, fs := sampleFS, reads := 0 } :=
  C5_dry_run dryArgs sampleFS "src" "dst" goodRepair goodReply ["y"]
    [("src/ep1.mkv", "dst/Show/Episode_01.mkv")]
    (by rfl) (by rfl) (by rfl) (by rfl)

/-- C9: when the target directory contains no subdirectories (even if
the source directory holds media files), `get_file_pairs` returns an
empty sequence without sending any request, and `run` terminates with
exit code 0 and no filesystem mutation. -/
theorem C9_no_target_dirs (args : Args) (fs : FS) (sp tp : String)
    (repair : String → Json) (resp : Json) (inputs : List String)
    (hv : args.version = false)
    (ht : (listDirs fs tp).isEmpty = true) :
    getFilePairs fs sp tp repair resp = (.ok [], false) ∧
    run args fs sp tp repair resp inputs = { exitCode := 0, fs := fs, reads := 0 } := by
  have hg : getFilePairs fs sp tp repair resp = (.ok [], false) := by
    by_cases hs : ((listFiles fs sp).filter isMediaFile).isEmpty
    · simp [getFilePairs, hs]
    · simp [getFilePairs, hs, ht]
  refine ⟨hg, ?_⟩
  have h1 : (getFilePairs fs sp tp repair resp).1 = .ok [] := by rw [hg]
  rw [run_ok args fs sp tp repair resp inputs [] hv h1]
  simp [runAfterPairs]

/-- Witness for C9: media files present, but no target subdirectory. -/
theorem C9_no_target_dirs_witness :
    getFilePairs c9FS "src" "dst" nullRepair badReply = (.ok [], false) ∧
    run askArgs c9FS "src" "dst" nullRepair badReply [] =
      { exitCode := 0, fs := c9FS, reads := 0 } :=
  C9_no_target_dirs askArgs c9FS "src" "dst" nullRepair badReply []
    (by rfl) (by rfl)

theorem runDirectories_yes (args : Args) (fs : FS)
    (pairs : List (String × String)) (inputs others : List String) (idx : Nat)
    (hy : args.yes = true) :
    (runDirectories args fs pairs inputs idx).reads = idx ∧
    runDirectories args fs pairs inputs idx =
      runDirectories args fs pairs others idx := by
  by_cases hm : (findMissingDirectories fs pairs).isEmpty
  · simp [runDirectories, hm, runMove]
  · simp only [runDirectories, hm, hy, if_true, Bool.false_eq_true, if_false]
    cases hc : (createDirectories fs (findMissingDirectories fs pairs)).1 <;>
      simp [hc, runMove]

theorem runConflicts_yes (args : Args) (fs : FS)
    (pairs : List (String × String)) (inputs others : List String) (idx : Nat)
    (hy : args.yes = true) :
    (runConflicts args fs pairs inputs idx).reads = idx ∧
    runConflicts args fs pairs inputs idx =
      runConflicts args fs pairs others idx := by
  have h := runDirectories_yes args fs pairs inputs others idx hy
  simp only [runConflicts, hy, Bool.not_true, Bool.and_false, Bool.false_eq_true,
    if_false]
  exact h

/-- C8: with the auto-confirm flag set, the input reader is never
consulted — every prompt (conflicts, directory creation, final move) is
bypassed — and the outcome of `run` is identical for any two lists of
reader responses. -/
theorem C8_auto_confirm (args : Args) (fs : FS) (sp tp : String)
    (repair : String → Json) (resp : Json)
    (hy : args.yes = true) :
    (∀ inputs, (run args fs sp tp repair resp inputs).reads = 0) ∧
    (∀ inputs others, run args fs sp tp repair resp inputs =
      run args fs sp tp repair resp others) := by
  have hafter : ∀ inputs others pairs,
      (runAfterPairs args fs pairs inputs).reads = 0 ∧
      runAfterPairs args fs pairs inputs = runAfterPairs args fs pairs others := by
    intro inputs others pairs
    by_cases hne : pairs.isEmpty
    · simp [runAfterPairs, hne]
    · by_cases hd : args.dryRun
      · simp [runAfterPairs, hne, hd]
      · have h := runConflicts_yes args fs pairs inputs others 0 hy
        simp only [runAfterPairs, hne, Bool.false_eq_true, if_false, hd,
          confirmOperation, hy, if_true]
        exact h
  constructor
  · intro inputs
    by_cases hv : args.version
    · simp [run, hv]
    · cases hp : (getFilePairs fs sp tp repair resp).1 with
      | error e => simp [run, hv, hp]
      | ok pairs =>
        rw [run_ok args fs sp tp repair resp inputs pairs (by simpa using hv) hp]
        exact (hafter inputs inputs pairs).1
  · intro inputs others
    by_cases hv : args.version
    · simp [run, hv]
    · cases hp : (getFilePairs fs sp tp repair resp).1 with
      | error e => simp [run, hv, hp]
      | ok pairs =>
        rw [run_ok args fs sp tp repair resp inputs pairs (by simpa using hv) hp,
          run_ok args fs sp tp repair resp others pairs (by simpa using hv) hp]
        exact (hafter inputs others pairs).2

/-- Witness for C8 at a concrete run with differing reader responses. -/
theorem C8_auto_confirm_witness :
    (run yesArgs sampleFS "src" "dst" goodRepair goodReply ["n"]).reads = 0 ∧
    run yesArgs sampleFS "src" "dst" goodRepair goodReply ["n"] =
      run yesArgs sampleFS "src" "dst" goodRepair goodReply ["y", "y", "y"] :=
  ⟨(C8_auto_confirm yesArgs sampleFS "src" "dst" goodRepair goodReply
      (by rfl)).1 ["n"],
   (C8_auto_confirm yesArgs sampleFS "src" "dst" goodRepair goodReply
      (by rfl)).2 ["n"] ["y", "y", "y"]⟩

theorem run_first_prompt_declined (args : Args) (fs : FS) (sp tp : String)
    (repair : String → Json) (resp : Json) (inputs : List String)
    (pairs : List (String × String)) (hy : args.yes = false)
    (hv : args.version = false) (hd : args.dryRun = false)
    (hp : (getFilePairs fs sp tp repair resp).1 = .ok pairs)
    (hne : pairs.isEmpty = false) (h0 : inputs.getD 0 "" ≠ "y") :
    run args fs sp tp repair resp inputs =
      { exitCode := 0, fs := fs, reads := 1 } := by
  rw [run_ok args fs sp tp repair resp inputs pairs hv hp]
  have h0x : ¬inputs[0]?.getD "" = "y" := by simpa using h0
  have hc : confirmOperation args.yes inputs 0 = (false, 1) := by
    simp [confirmOperation, hy, h0x]
  simp [runAfterPairs, hne, hd, hc]

/-- C10: outside auto-confirm mode a prompt is accepted only when the
input reader's response is exactly the string "y"; any other response —
"Y", "yes", or the empty string included — cancels, and `run` then
terminates with exit code 0. -/
theorem C10_strict_y (args : Args) (fs : FS) (sp tp : String)
    (repair : String → Json) (resp : Json) (inputs : List String)
    (pairs : List (String × String)) (hy : args.yes = false) :
    (∀ idx, (confirmOperation args.yes inputs idx).1 = true ↔
      inputs.getD idx "" = "y") ∧
    (args.version = false → args.dryRun = false →
      (getFilePairs fs sp tp repair resp).1 = .ok pairs →
      pairs.isEmpty = false →
      inputs.getD 0 "" ≠ "y" →
      run args fs sp tp repair resp inputs =
        { exitCode := 0, fs := fs, reads := 1 }) := by
  constructor
  · intro idx
    simp [confirmOperation, hy]
  · intro hv hd hp hne h0
    exact run_first_prompt_declined args fs sp tp repair resp inputs pairs
      hy hv hd hp hne h0

/-- Witness for C10: the responses "Y", "yes" and "" all cancel with
exit code 0, while "y" is the accepting response. -/
theorem C10_strict_y_witness :
    run askArgs sampleFS "src" "dst" goodRepair goodReply ["Y"] =
      { exitCode := 0, fs := sampleFS, reads := 1 } ∧
    run askArgs sampleFS "src" "dst" goodRepair goodReply ["yes"] =
      { exitCode := 0, fs := sampleFS, reads := 1 } ∧
    run askArgs sampleFS "src" "dst" goodRepair goodReply [] =
      { exitCode := 0, fs := sampleFS, reads := 1 } ∧
    ((confirmOperation askArgs.yes ["y"] 0).1 = true ↔
      (["y"] : List String).getD 0 "" = "y") := by
  refine ⟨?_, ?_, ?_, ?_⟩
  · exact (C10_strict_y askArgs sampleFS "src" "dst" goodRepair goodReply ["Y"]
      [("src/ep1.mkv", "dst/Show/Episode_01.mkv")] (by rfl)).2
      (by rfl) (by rfl) (by rfl) (by rfl) (by decide)
  · exact (C10_strict_y askArgs sampleFS "src" "dst" goodRepair goodReply ["yes"]
      [("src/ep1.mkv", "dst/Show/Episode_01.mkv")] (by rfl)).2
      (by rfl) (by rfl) (by rfl) (by rfl) (by decide)
  · exact (C10_strict_y askArgs sampleFS "src" "dst" goodRepair goodReply []
      [("src/ep1.mkv", "dst/Show/Episode_01.mkv")] (by rfl)).2
      (by rfl) (by rfl) (by rfl) (by rfl) (by decide)
  · exact (C10_strict_y askArgs sampleFS "src" "dst" goodRepair goodReply ["y"]
      [("src/ep1.mkv", "dst/Show/Episode_01.mkv")] (by rfl)).1 0

/-- C4: `run` returns exit code 0 when a confirmation prompt outside
auto-confirm mode is answered negatively (final-move, conflict, and
directory prompts), exit code 1 when directory creation fails, and
after moving returns exit code 0 exactly when the mover reported zero
MoveErrors, with one reported message per error. -/
theorem C4_exit_codes (args : Args) (fs : FS) (sp tp : String)
    (repair : String → Json) (resp : Json) (inputs : List String)
    (pairs : List (String × String))
    (hv : args.version = false) (hd : args.dryRun = false)
    (hp : (getFilePairs fs sp tp repair resp).1 = .ok pairs)
    (hne : pairs.isEmpty = false) :
    (args.yes = false → inputs.getD 0 "" ≠ "y" →
      run args fs sp tp repair resp inputs =
        { exitCode := 0, fs := fs, reads := 1 }) ∧
    (args.yes = false → inputs.getD 0 "" = "y" →
      (checkForConflicts fs pairs).isEmpty = false →
      inputs.getD 1 "" ≠ "y" →
      run args fs sp tp repair resp inputs =
        { exitCode := 0, fs := fs, reads := 2 }) ∧
    (args.yes = false → inputs.getD 0 "" = "y" →
      (checkForConflicts fs pairs).isEmpty = true →
      (findMissingDirectories fs pairs).isEmpty = false →
      inputs.getD 1 "" ≠ "y" →
      run args fs sp tp repair resp inputs =
        { exitCode := 0, fs := fs, reads := 2 }) ∧
    (args.yes = true →
      (findMissingDirectories fs pairs).isEmpty = false →
      (createDirectories fs (findMissingDirectories fs pairs)).1 = false →
      run args fs sp tp repair resp inputs =
        { exitCode := 1,
          fs := (createDirectories fs (findMissingDirectories fs pairs)).2,
          reads := 0 }) ∧
    (args.yes = true →
      (findMissingDirectories fs pairs).isEmpty = true →
      run args fs sp tp repair resp inputs =
        { exitCode := if (renameFiles fs pairs).1.isEmpty then 0 else 1,
          fs := (renameFiles fs pairs).2, reads := 0 }) ∧
    ((renameFilesAndReport fs pairs).exitCode = 0 ↔
      (renameFiles fs pairs).1 = []) ∧
    (renameFilesAndReport fs pairs).reported.length =
      (renameFiles fs pairs).1.length := by
  refine ⟨?_, ?_, ?_, ?_, ?_, ?_, ?_⟩
  · intro hy h0
    exact run_first_prompt_declined args fs sp tp repair resp inputs pairs
      hy hv hd hp hne h0
  · intro hy h0 hcf h1
    rw [run_ok args fs sp tp repair resp inputs pairs hv hp]
    have h0x : inputs[0]?.getD "" = "y" := by simpa using h0
    have h1x : ¬inputs[1]?.getD "" = "y" := by simpa using h1
    have hc0 : confirmOperation false inputs 0 = (true, 1) := by
      simp [confirmOperation, h0x]
    have hc1 : confirmOperation false inputs 1 = (false, 2) := by
      simp [confirmOperation, h1x]
    simp [runAfterPairs, hne, hd, hc0, runConflicts, hcf, hy, hc1]
  · intro hy h0 hcf hm h1
    rw [run_ok args fs sp tp repair resp inputs pairs hv hp]
    have h0x : inputs[0]?.getD "" = "y" := by simpa using h0
    have h1x : ¬inputs[1]?.getD "" = "y" := by simpa using h1
    have hc0 : confirmOperation false inputs 0 = (true, 1) := by
      simp [confirmOperation, h0x]
    have hc1 : confirmOperation false inputs 1 = (false, 2) := by
      simp [confirmOperation, h1x]
    simp [runAfterPairs, hne, hd, hc0, runConflicts, hcf,
      runDirectories, hm, hy, hc1]
  · intro hy hm hcr
    rw [run_ok args fs sp tp repair resp inputs pairs hv hp]
    simp [runAfterPairs, hne, hd, confirmOperation, hy, runConflicts,
      runDirectories, hm, hcr]
  · intro hy hm
    rw [run_ok args fs sp tp repair resp inputs pairs hv hp]
    simp [runAfterPairs, hne, hd, confirmOperation, hy, runConflicts,
      runDirectories, hm, runMove, renameFilesAndReport]
  · cases hc : (renameFiles fs pairs).1 with
    | nil => simp [renameFilesAndReport, hc]
    | cons e tl => simp [renameFilesAndReport, hc]
  · simp [renameFilesAndReport]

/-- Witness for C4: a negative final prompt cancels with exit code 0, a
denied directory creation exits with code 1, and a clean run of moves
exits with code 0. -/
theorem C4_exit_codes_witness :
    run askArgs sampleFS "src" "dst" goodRepair goodReply ["n"] =
      { exitCode := 0, fs := sampleFS, reads := 1 } ∧
    run yesArgs c4FS "src" "dst" goodRepair goodReply [] =
      { exitCode := 1, fs := c4FS, reads := 0 } ∧
    run yesArgs sampleFS "src" "dst" goodRepair goodReply [] =
      { exitCode := 0,
        fs := (renameFiles sampleFS
          [("src/ep1.mkv", "dst/Show/Episode_01.mkv")]).2
        reads := 0 } := by
  refine ⟨?_, ?_, ?_⟩
  · exact (C4_exit_codes askArgs sampleFS "src" "dst" goodRepair goodReply ["n"]
      [("src/ep1.mkv", "dst/Show/Episode_01.mkv")]
      (by rfl) (by rfl) (by rfl) (by rfl)).1 (by rfl) (by decide)
  · exact (C4_exit_codes yesArgs c4FS "src" "dst" goodRepair goodReply []
      [("src/ep1.mkv", "dst/Show/Episode_01.mkv")]
      (by rfl) (by rfl) (by rfl) (by rfl)).2.2.2.1 (by rfl) (by rfl) (by rfl)
  · exact (C4_exit_codes yesArgs sampleFS "src" "dst" goodRepair goodReply []
      [("src/ep1.mkv", "dst/Show/Episode_01.mkv")]
      (by rfl) (by rfl) (by rfl) (by rfl)).2.2.2.2.1 (by rfl) (by rfl)

end AnimeLibrarian
